import Mathlib

/-!
Verification of the Tamagitto backend against its specification.

The Python sources under `backend/` are shallowly embedded below:
pure functions become Lean functions, stateful methods become explicit
state passing on record types, Python `int` becomes `Int`/`Nat`, Python
floats that only ever hold exact decimal values become `ℚ`, fallible
calls become `Except`, and wall-clock timestamps become abstract integer
ticks threaded as a `now` parameter.
-/

namespace Tamagitto

/-! ## Entity model (`backend/models/entity.py`) -/

/-- Lifecycle status of an entity: the `status` column, constrained to
`'alive' | 'dying' | 'dead'`. -/
inductive Status where
  | alive
  | dying
  | dead
deriving DecidableEq, Repr

/-- One `HealthHistory` audit row as appended by `Entity.update_health`. -/
structure HealthHistoryEntry where
  health_score : Int
  change_reason : String
  commit_analysis_id : Option Nat
deriving DecidableEq, Repr

/-- The slice of the entity metadata dictionary that the embedded
operations read or write (`revival_count`, `last_revival`). -/
structure Metadata where
  revival_count : Option Nat := none
  last_revival : Option Int := none
deriving DecidableEq, Repr

/-- The `Entity` row.  `death_date`, `last_interaction` and
`interaction_cooldown_until` are timestamps in abstract ticks. -/
structure Entity where
  health_score : Int
  status : Status
  death_date : Option Int := none
  metadata : Metadata := {}
  last_interaction : Option Int := none
  interaction_cooldown_until : Option Int := none
  health_history : List HealthHistoryEntry := []
deriving DecidableEq, Repr

/-- `Entity.is_alive`. -/
def Entity.is_alive (e : Entity) : Bool := e.status = Status.alive

/-- `Entity.is_dead`. -/
def Entity.is_dead (e : Entity) : Bool := e.status = Status.dead

/-- `Entity.update_health`: clamps the new health to `[0,100]`, runs the
status-transition `if`/`elif` chain, appends a `HealthHistory` row, and
returns whether the entity just died together with the updated entity. -/
def Entity.update_health (e : Entity) (new_health : Int) (reason : String)
    (commit_analysis_id : Option Nat) (now : Int) : Bool × Entity :=
  let nh := max 0 (min 100 new_health)
  let old_status := e.status
  let stdd : Status × Option Int :=
    if nh = 0 ∧ e.status ≠ Status.dead then (Status.dead, some now)
    else if nh ≤ 15 ∧ e.status = Status.alive then (Status.dying, e.death_date)
    else if 15 < nh ∧ e.status = Status.dying then (Status.alive, e.death_date)
    else (e.status, e.death_date)
  let entry : HealthHistoryEntry :=
    { health_score := nh, change_reason := reason, commit_analysis_id := commit_analysis_id }
  let e' : Entity :=
    { e with health_score := nh, status := stdd.1, death_date := stdd.2,
             health_history := e.health_history ++ [entry] }
  (decide (old_status ≠ Status.dead ∧ stdd.1 = Status.dead), e')

/-- `Entity.apply_health_delta`: adds the delta to the current score and
delegates to `update_health`. -/
def Entity.apply_health_delta (e : Entity) (delta : Int) (reason : String)
    (commit_analysis_id : Option Nat) (now : Int) : Bool × Entity :=
  e.update_health (e.health_score + delta) reason commit_analysis_id now

/-- C1 helper: the clamped health value `max(0, min(100, h+d))`. -/
def clampedHealth (h d : Int) : Int := max 0 (min 100 (h + d))

/-- `Entity.time_until_cooldown_expires` (`backend/models/entity.py`):
the reset cooldown derived from `death_date` (default 48 hours); `none`
when not in cooldown.  Hours are 3600 ticks. -/
def Entity.time_until_cooldown_expires (e : Entity) (cooldown_hours : Nat) (now : Int) :
    Option Int :=
  match e.death_date with
  | none => none
  | some dd =>
      let cooldown_end := dd + (cooldown_hours : Int) * 3600
      if now < cooldown_end then some (cooldown_end - now) else none

/-! ## Entity service (`backend/services/entity_service.py`)

`apply_commit_impact` and `revive_entity` call `can_receive_health_update`,
`custom_metadata` and an interaction-cooldown variant of
`time_until_cooldown_expires` on the service-side `Entity` class, which is
not present in the source tree (only its callers are).  Those members are
modelled from the spec below; everything else follows the source. -/

/-- Modelled from the spec: `Entity.can_receive_health_update` is called by
`EntityService.apply_commit_impact` but is missing from the sources.
Per §4.5, a commit-driven update is accepted exactly when there is no
interaction cooldown or the cooldown has expired. -/
def Entity.can_receive_health_update (e : Entity) (now : Int) : Bool :=
  match e.interaction_cooldown_until with
  | none => true
  | some t => decide (t ≤ now)

/-- Modelled from the spec: the interaction-cooldown variant of
`Entity.time_until_cooldown_expires` used by the entity service is missing
from the sources.  Per §4.5 it reports the remaining time of an
unexpired interaction cooldown, and `none` otherwise. -/
def Entity.time_until_interaction_cooldown_expires (e : Entity) (now : Int) : Option Int :=
  match e.interaction_cooldown_until with
  | none => none
  | some t => if now < t then some (t - now) else none

/-- Result dictionary of `EntityService.apply_commit_impact`; absent keys
are `none`. -/
structure ImpactResult where
  success : Bool
  reason : Option String := none
  cooldown_remaining : Option Int := none
  health_change : Option Int := none
  new_health : Option Int := none
  entity_died : Option Bool := none
  status : Option Status := none
  cooldown_until : Option Int := none
deriving DecidableEq, Repr

/-- `EntityService.apply_commit_impact`.  The randomly drawn cooldown
length `random.randint(1, max_cooldown_hours)` is passed in as
`rand_hours`; the commit analysis is passed as its health impact, quality
score and id. -/
def apply_commit_impact (e : Entity) (health_impact : Int) (quality_score : Int)
    (commit_analysis_id : Option Nat) (rand_hours : Nat) (now : Int) :
    ImpactResult × Entity :=
  if ¬ e.is_alive then ({ success := false, reason := some "Entity is dead" }, e)
  else if ¬ e.can_receive_health_update now then
    ({ success := false, reason := some "Entity is in cooldown period",
       cooldown_remaining := e.time_until_interaction_cooldown_expires now }, e)
  else
    let old_health := e.health_score
    let r1 := e.apply_health_delta health_impact
        ("commit_analysis_" ++ toString quality_score) commit_analysis_id now
    let entity_died := r1.1
    let e2 : Entity := { r1.2 with last_interaction := some now,
                                   interaction_cooldown_until :=
                                     some (now + (rand_hours : Int) * 3600) }
    ({ success := true,
       health_change := some (e2.health_score - old_health),
       new_health := some e2.health_score,
       entity_died := some entity_died,
       status := some e2.status,
       cooldown_until := some (now + (rand_hours : Int) * 3600) }, e2)

/-- Result dictionary of `EntityService.revive_entity`. -/
structure ReviveResult where
  success : Bool
  reason : Option String := none
  new_health : Option Int := none
  revival_count : Option Nat := none
deriving DecidableEq, Repr

/-- `EntityService.revive_entity`: rejected when the entity is alive;
otherwise resets status and timestamps, writes the chosen health through
`update_health`, and bumps the revival metadata. -/
def revive_entity (e : Entity) (initial_health : Int) (now : Int) :
    ReviveResult × Entity :=
  if e.is_alive then ({ success := false, reason := some "Entity is already alive" }, e)
  else
    let e1 : Entity := { e with status := Status.alive, death_date := none,
                                last_interaction := some now,
                                interaction_cooldown_until := none }
    let e2 := (e1.update_health initial_health "revival" none now).2
    let rc := e2.metadata.revival_count.getD 0 + 1
    let md : Metadata := { e2.metadata with revival_count := some rc, last_revival := some now }
    let e3 : Entity := { e2 with metadata := md }
    ({ success := true, new_health := some e3.health_score, revival_count := some rc }, e3)

/-! Concrete entities used by the witnesses and counterexamples. -/

/-- An alive entity at health 40 with no cooldown. -/
def aliveEnt40 : Entity := { health_score := 40, status := Status.alive }

/-- An alive entity at health 50 whose interaction cooldown runs to tick 100. -/
def cooldownEnt : Entity :=
  { health_score := 50, status := Status.alive, interaction_cooldown_until := some 100 }

/-- A dead entity that died at tick 5. -/
def deadEnt : Entity := { health_score := 0, status := Status.dead, death_date := some 5 }

/-! ## String and character helpers for the analysis service

Python string operations are embedded on `List Char`.  Case folding uses
ASCII case (the inputs the analysis service classifies are file names and
commit messages). -/

/-- Lower-cased character list of a string (`str.lower()`). -/
def lowerStr (s : String) : List Char := s.data.map Char.toLower

/-- `pat in l` (substring test): `pat` occurs at some position of `l`. -/
def containsL (l : List Char) (pat : String) : Bool :=
  (List.range (l.length + 1)).any (fun i => pat.data.isPrefixOf (l.drop i))

/-- `l.endswith(pat)`. -/
def endsL (l : List Char) (pat : String) : Bool := pat.data.isSuffixOf l

/-- `l.startswith(pat)`. -/
def startsL (l : List Char) (pat : String) : Bool := pat.data.isPrefixOf l

/-- Python whitespace recognized by `str.strip()` (ASCII part). -/
def pySpace (c : Char) : Bool :=
  c = ' ' ∨ c = '\t' ∨ c = '\n' ∨ c = '\r' ∨ c = '\x0b' ∨ c = '\x0c'

/-- `str.strip()` on a character list. -/
def stripL (l : List Char) : List Char :=
  ((l.dropWhile pySpace).reverse.dropWhile pySpace).reverse

/-- The regex atom `.`: any character except a newline. -/
def dotMatch (c : Char) : Bool := c ≠ '\n'

/-- Prefix-anchored `.+`: the list must begin with one `.`-matching char. -/
def dotPlusAt (l : List Char) : Bool :=
  match l with
  | [] => false
  | c :: _ => dotMatch c

/-- After `type(` was consumed: does the remainder split as
`mid ++ "): " ++ rest` with `mid` a nonempty run of `.`-matching chars and
`rest` matching `.+`?  (Greedy/backtracking existence semantics of
`(\(.+\))?: .+`.) -/
def midScan : List Char → Bool
  | [] => false
  | c :: tl =>
      dotMatch c &&
        ((startsL tl "): " && dotPlusAt (tl.drop 3)) || midScan tl)

/-- `re.match(r'^type(\(.+\))?: .+', line, re.IGNORECASE)` for one
conventional-commit type, on an already lower-cased line. -/
def matchesConventional (t : String) (line : List Char) : Bool :=
  (startsL line (t ++ ": ") && dotPlusAt (line.drop (t.length + 2))) ||
  (startsL line (t ++ "(") && midScan (line.drop (t.length + 1)))

/-- `re.match(r'^word$', line)` on an already lower-cased line (`$` also
matches just before one trailing newline). -/
def matchesExact (t : String) (line : List Char) : Bool :=
  line = t.data || line = t.data ++ ['\n']

/-- `str.split('\n')` on a character list (keeps empty pieces, always
returns at least one piece). -/
def splitLines : List Char → List (List Char)
  | [] => [[]]
  | c :: tl =>
      let r := splitLines tl
      if c = '\n' then [] :: r
      else (c :: r.headD []) :: r.tail

/-- `'\n'.join(pieces)` on character lists. -/
def joinNL : List (List Char) → List Char
  | [] => []
  | [l] => l
  | l :: ls => l ++ '\n' :: joinNL ls

/-! ## Analysis service (`backend/services/analysis_service.py`) -/

/-- `AnalysisService._is_test_file`: the regex alternatives flattened to
substring / suffix tests on the lower-cased filename. -/
def is_test_file (filename : String) : Bool :=
  let l := lowerStr filename
  containsL l "test/" || containsL l "tests/" ||
  containsL l "__test__/" || containsL l "__tests__/" ||
  containsL l "spec/" || containsL l ".test." || containsL l ".spec." ||
  containsL l "_test." || containsL l "_spec." ||
  endsL l "test.java" || endsL l "tests.java"

/-- `AnalysisService._is_code_file`. -/
def is_code_file (filename : String) : Bool :=
  let l := lowerStr filename
  ([".py", ".js", ".ts", ".java", ".cpp", ".c", ".h", ".cs", ".php",
    ".rb", ".go", ".rs", ".swift", ".kt", ".scala", ".clj", ".hs",
    ".jsx", ".tsx", ".vue", ".svelte"]).any (fun ext => endsL l ext)

/-- `AnalysisService._is_config_file`. -/
def is_config_file (filename : String) : Bool :=
  let l := lowerStr filename
  endsL l ".json" || endsL l ".yaml" || endsL l ".yml" || endsL l ".toml" ||
  endsL l ".ini" || endsL l ".cfg" || endsL l ".conf" || endsL l ".config" ||
  endsL l "package.json" || endsL l "requirements.txt" ||
  containsL l "dockerfile" || containsL l "docker-compose"

/-- `AnalysisService._is_documentation_file`. -/
def is_documentation_file (filename : String) : Bool :=
  let l := lowerStr filename
  endsL l ".md" || endsL l ".rst" || endsL l ".txt" ||
  containsL l "readme" || containsL l "changelog" ||
  containsL l "contributing" || containsL l "license" || containsL l "docs/"

/-- `AnalysisService._analyze_commit_message`: base 50, adjusted by
first-line length, conventional format, capitalization, trailing period,
body presence and bad-pattern match, clamped to `[0,100]`. -/
def analyze_commit_message (message : String) : Int :=
  if message = "" then 0
  else
    let lines := splitLines message.data
    let first_line := stripL (lines.headD [])
    let lline := first_line.map Char.toLower
    let score1 : Int := 50 +
      (if 10 ≤ first_line.length ∧ first_line.length ≤ 72 then 15
       else if first_line.length < 10 then -20
       else if 72 < first_line.length then -10
       else 0)
    let score2 := score1 +
      (if (["feat", "fix", "docs", "style", "refactor", "test", "chore"]).any
            (fun t => matchesConventional t lline) then 20 else 0)
    let score3 := score2 +
      (if first_line ≠ [] ∧ (first_line.headD ' ').isUpper then 5 else 0)
    let score4 := score3 +
      (if first_line ≠ [] ∧ first_line.getLast? ≠ some '.' then 5 else 0)
    let body := stripL (joinNL (lines.drop 2))
    let score5 := score4 + (if 2 < lines.length ∧ 20 < body.length then 10 else 0)
    let score6 := score5 -
      (if (["fix", "update", "changes", "wip", "tmp"]).any
            (fun t => matchesExact t lline) then 30 else 0)
    max 0 (min 100 score6)

/-- One entry of the `files` list of a GitHub commit payload (the fields
the analysis service reads). -/
structure FileEntry where
  filename : String := ""
  additions : Nat := 0
  deletions : Nat := 0
  changes : Nat := 0
deriving DecidableEq, Repr

/-- The classification loop of `_analyze_code_changes`: test files take
priority over config files, which take priority over code files. -/
def count_test_files (files : List FileEntry) : Nat :=
  (files.filter (fun f => is_test_file f.filename)).length

/-- Files counted as config by the `_analyze_code_changes` loop. -/
def count_config_files (files : List FileEntry) : Nat :=
  (files.filter (fun f => !is_test_file f.filename && is_config_file f.filename)).length

/-- Files counted as code by the `_analyze_code_changes` loop. -/
def count_code_files (files : List FileEntry) : Nat :=
  (files.filter (fun f =>
    !is_test_file f.filename && !is_config_file f.filename && is_code_file f.filename)).length

/-- `AnalysisService._analyze_code_changes` (the `repository` argument is
unused by the source).  Note the size adjustments form one `if`/`elif`
chain. -/
def analyze_code_changes (files : List FileEntry) : Int :=
  if files = [] then 50
  else
    let total_changes : Nat := (files.map (fun f => f.changes)).sum
    let score1 : Int := 50 +
      (if 50 ≤ total_changes ∧ total_changes ≤ 200 then 20
       else if total_changes < 50 then 10
       else if 500 < total_changes then -20
       else if 1000 < total_changes then -40
       else 0)
    let test_files := count_test_files files
    let code_files := count_code_files files
    let score2 := score1 + (if 0 < test_files ∧ 0 < code_files then 15 else 0)
    let score3 := score2 +
      (if files.length ≤ 10 then 10
       else if 20 < files.length then -15
       else 0)
    max 0 (min 100 score3)

/-- `AnalysisService._analyze_test_coverage`. -/
def analyze_test_coverage (files : List FileEntry) : Int :=
  if files = [] then 50
  else
    let test_files := (files.filter (fun f => is_test_file f.filename)).length
    let code_files := (files.filter (fun f => is_code_file f.filename)).length
    if code_files = 0 then 50
    else if test_files = 0 then 20
    else
      let test_to_code : ℚ := (test_files : ℚ) / (max code_files 1 : ℚ)
      if 1 ≤ test_to_code then 90
      else if 1/2 ≤ test_to_code then 75
      else if 1/4 ≤ test_to_code then 60
      else 40

/-- `AnalysisService._analyze_documentation`. -/
def analyze_documentation (files : List FileEntry) : Int :=
  if files = [] then 50
  else
    let doc_files := (files.filter (fun f => is_documentation_file f.filename)).length
    let code_files := (files.filter (fun f => is_code_file f.filename)).length
    if code_files = 0 then 50
    else if 0 < doc_files then 80
    else
      let has_important_docs := files.any (fun f =>
        (["README", "CHANGELOG", "CONTRIBUTING", "LICENSE"]).any
          (fun d => containsL (f.filename.data.map Char.toUpper) d))
      if has_important_docs then 70 else 30

/-- A parsed timestamp (ISO-8601 parsing is modelled as already done):
abstract tick plus the UTC hour used by `_analyze_best_practices`. -/
structure PyDateTime where
  stamp : Int := 0
  hour : Nat := 0
deriving DecidableEq, Repr

/-- The `commit` object inside a GitHub commit payload. -/
structure CommitInner where
  message : String := ""
  author_name : Option String := none
  author_email : Option String := none
  author_date : Option PyDateTime := none
deriving DecidableEq, Repr

/-- A GitHub commit payload (the fields the services read). -/
structure CommitData where
  sha : Option String := none
  commit : CommitInner := {}
  stats_additions : Nat := 0
  stats_deletions : Nat := 0
  files : List FileEntry := []
deriving DecidableEq, Repr

/-- `AnalysisService._analyze_best_practices`. -/
def analyze_best_practices (cd : CommitData) : Int :=
  let additions := cd.stats_additions
  let deletions := cd.stats_deletions
  let score1 : Int := 50 +
    (if 0 < deletions ∧
        (1/2 : ℚ) ≤ (additions : ℚ) / (deletions : ℚ) ∧
        (additions : ℚ) / (deletions : ℚ) ≤ 2 then 15 else 0)
  let score2 := score1 - (if 100 < additions ∧ deletions < 10 then 10 else 0)
  let score3 := score2 +
    (match cd.commit.author_date with
     | none => 0
     | some dt =>
         if 9 ≤ dt.hour ∧ dt.hour ≤ 17 then 5
         else if 22 ≤ dt.hour ∨ dt.hour ≤ 6 then -5
         else 0)
  max 0 (min 100 score3)

/-- `AnalysisService._analyze_consistency`: fixed placeholder. -/
def analyze_consistency : Int := 60

/-- The six heuristic dimension scores. -/
structure QualityScores where
  commit_message : Int
  code_changes : Int
  test_coverage : Int
  documentation : Int
  best_practices : Int
  consistency : Int
deriving DecidableEq, Repr

/-- `AnalysisService._analyze_commit_quality`. -/
def analyze_commit_quality (cd : CommitData) : QualityScores :=
  { commit_message := analyze_commit_message cd.commit.message
    code_changes := analyze_code_changes cd.files
    test_coverage := analyze_test_coverage cd.files
    documentation := analyze_documentation cd.files
    best_practices := analyze_best_practices cd
    consistency := analyze_consistency }

/-- Python `round()` on an exact rational: round half to even.  (IEEE
double noise on the weight constants is abstracted to exact decimals.) -/
def pyRound (q : ℚ) : Int :=
  let f := ⌊q⌋
  let frac := q - (f : ℚ)
  if frac < 1/2 then f
  else if 1/2 < frac then f + 1
  else if f % 2 = 0 then f else f + 1

/-- Python `int()` on a rational: truncation toward zero. -/
def truncQ (q : ℚ) : Int := if q < 0 then -⌊-q⌋ else ⌊q⌋

/-- `AnalysisService._calculate_quality_score`: weighted sum over the
`QUALITY_WEIGHTS` table, then `int(round(_))`. -/
def calculate_quality_score (qs : QualityScores) : Int :=
  pyRound ((qs.commit_message : ℚ) * (15/100) + (qs.code_changes : ℚ) * (30/100) +
           (qs.test_coverage : ℚ) * (20/100) + (qs.documentation : ℚ) * (10/100) +
           (qs.best_practices : ℚ) * (15/100) + (qs.consistency : ℚ) * (10/100))

/-- `AnalysisService.HEALTH_IMPACT_RANGES`. -/
def HEALTH_IMPACT_RANGES : List (String × (Int × Int)) :=
  [("excellent", (15, 20)), ("good", (5, 15)), ("average", (-2, 5)),
   ("poor", (-10, -2)), ("terrible", (-20, -10))]

/-- `AnalysisService._calculate_health_impact`: band midpoint scaled by
`clamp(total_changes/100, 0.5, 1.5)`, truncated, clamped to `[-20,20]`.
`metrics.get("total_changes", 50)` is passed as `total_changes`. -/
def calculate_health_impact (quality_score : Int) (total_changes : Nat) : Int :=
  let impact_range :=
    if 90 ≤ quality_score then (HEALTH_IMPACT_RANGES.lookup "excellent").getD (0, 0)
    else if 70 ≤ quality_score then (HEALTH_IMPACT_RANGES.lookup "good").getD (0, 0)
    else if 50 ≤ quality_score then (HEALTH_IMPACT_RANGES.lookup "average").getD (0, 0)
    else if 30 ≤ quality_score then (HEALTH_IMPACT_RANGES.lookup "poor").getD (0, 0)
    else (HEALTH_IMPACT_RANGES.lookup "terrible").getD (0, 0)
  let base_impact : ℚ := ((impact_range.1 : ℚ) + (impact_range.2 : ℚ)) / 2
  let size_factor : ℚ := min (3/2) (max (1/2) ((total_changes : ℚ) / 100))
  let final_impact := truncQ (base_impact * size_factor)
  max (-20) (min 20 final_impact)

/-! Spec-side vocabulary for C7, mirroring the claim's wording. -/

/-- The quality band named by the claim for a quality score. -/
def qualityBand (q : Int) : String :=
  if 90 ≤ q then "excellent"
  else if 70 ≤ q then "good"
  else if 50 ≤ q then "average"
  else if 30 ≤ q then "poor"
  else "terrible"

/-- Midpoint of a band of `HEALTH_IMPACT_RANGES`. -/
def bandMidpoint (band : String) : ℚ :=
  let r := (HEALTH_IMPACT_RANGES.lookup band).getD (0, 0)
  ((r.1 : ℚ) + (r.2 : ℚ)) / 2

/-- `clamp(total_changes/100, 0.5, 1.5)`. -/
def sizeFactor (total_changes : Nat) : ℚ :=
  min (3/2) (max (1/2) ((total_changes : ℚ) / 100))

/-! ## Commit metrics (`backend/services/github_service.py`) -/

/-- `GitHubService.extract_commit_metrics` output. -/
structure CommitMetrics where
  sha : Option String
  message : String
  title : String
  author_name : Option String
  author_email : Option String
  commit_date : Option PyDateTime
  additions : Nat
  deletions : Nat
  total_changes : Nat
  changed_files : Nat
  has_conventional_format : Bool
  message_length : Nat
  files_modified : List String
deriving DecidableEq, Repr

/-- `GitHubService.extract_commit_metrics`: pure normalization of a raw
commit payload. -/
def extract_commit_metrics (cd : CommitData) : CommitMetrics :=
  let additions := cd.stats_additions
  let deletions := cd.stats_deletions
  let message := cd.commit.message
  let message_lines := splitLines message.data
  let title : List Char := message_lines.headD []
  let has_conventional_format :=
    (["feat:", "fix:", "docs:", "style:", "refactor:", "test:", "chore:"]).any
      (fun p => startsL (title.map Char.toLower) p)
  { sha := cd.sha
    message := message
    title := String.mk title
    author_name := cd.commit.author_name
    author_email := cd.commit.author_email
    commit_date := cd.commit.author_date
    additions := additions
    deletions := deletions
    total_changes := additions + deletions
    changed_files := cd.files.length
    has_conventional_format := has_conventional_format
    message_length := message.data.length
    files_modified := cd.files.map (fun f => f.filename) }

/-! ## Commit analysis orchestration (`AnalysisService.analyze_commit`)

The two awaited AI-agent calls are passed in as their outcomes
(`Except`): `aiAnalyze` for `analyze_commit_quality`, `aiSuggest` for
`suggest_health_impact`.  Persisting the row in the database session is
modelled as appending it to a row list.  The conditional re-fetch of
commit details (when the payload has no file list) is modelled by the
`fetched` payload replacing the original, mirroring `dict.update` with a
full commit object. -/

/-- The validated AI analysis dictionary (the fields `analyze_commit`
reads). -/
structure AiAnalysis where
  overall_quality_score : Option Int := none
  dimension_scores : List (String × Int) := []
deriving DecidableEq, Repr

/-- The `quality_breakdown` value stored in `analysis_data`: the AI
dimension scores in the AI path, or the heuristic six-dimension scores in
the basic path. -/
inductive QualityBreakdown where
  | ai (ds : List (String × Int))
  | basic (qs : QualityScores)
deriving DecidableEq, Repr

/-- The repository context fields `analyze_commit` reads. -/
structure Repo where
  id : Nat := 0
  full_name : String := ""
  language : Option String := none
deriving DecidableEq, Repr

/-- The `CommitAnalysis` row as constructed by
`AnalysisService.analyze_commit` (field names follow the service's
keyword arguments; `analysis_data` is flattened into `metrics`,
`quality_breakdown`, `files_modified`, `ai_analysis`,
`analysis_method`). -/
structure AnalysisRow where
  repository_id : Nat
  commit_sha : Option String
  commit_message : String
  author_name : Option String
  author_email : Option String
  commit_date : Option PyDateTime
  additions : Nat
  deletions : Nat
  files_changed : Nat
  quality_score : Int
  health_impact : Int
  metrics : CommitMetrics
  quality_breakdown : QualityBreakdown
  files_modified : List String
  ai_analysis : Option AiAnalysis
  analysis_method : String
deriving DecidableEq, Repr

/-- `AnalysisService.analyze_commit`.  The fourth component of `chosen`
models whether the local variable `ai_analysis` was assigned (Python's
`'ai_analysis' in locals()`): it is `some _` exactly when the first AI
call returned normally, even if the second one then raised. -/
def analyze_commit (repo : Repo) (commit_data fetched : CommitData)
    (ai_enabled : Bool) (aiAnalyze : Except String AiAnalysis)
    (aiSuggest : Except String Int) (db : List AnalysisRow) :
    AnalysisRow × List AnalysisRow :=
  let cd := if commit_data.files.isEmpty then fetched else commit_data
  let metrics := extract_commit_metrics cd
  let chosen : Int × Int × QualityBreakdown × Option AiAnalysis :=
    if ai_enabled then
      match aiAnalyze with
      | Except.ok ai =>
          match aiSuggest with
          | Except.ok impact =>
              (ai.overall_quality_score.getD 60, impact,
               QualityBreakdown.ai ai.dimension_scores, some ai)
          | Except.error _ =>
              let qs := analyze_commit_quality cd
              (calculate_quality_score qs,
               calculate_health_impact (calculate_quality_score qs) metrics.total_changes,
               QualityBreakdown.basic qs, some ai)
      | Except.error _ =>
          let qs := analyze_commit_quality cd
          (calculate_quality_score qs,
           calculate_health_impact (calculate_quality_score qs) metrics.total_changes,
           QualityBreakdown.basic qs, none)
    else
      let qs := analyze_commit_quality cd
      (calculate_quality_score qs,
       calculate_health_impact (calculate_quality_score qs) metrics.total_changes,
       QualityBreakdown.basic qs, none)
  let ai_in_locals := ai_enabled && (chosen.2.2.2).isSome
  let row : AnalysisRow :=
    { repository_id := repo.id
      commit_sha := metrics.sha
      commit_message := metrics.message
      author_name := metrics.author_name
      author_email := metrics.author_email
      commit_date := metrics.commit_date
      additions := metrics.additions
      deletions := metrics.deletions
      files_changed := metrics.changed_files
      quality_score := chosen.1
      health_impact := chosen.2.1
      metrics := metrics
      quality_breakdown := chosen.2.2.1
      files_modified := metrics.files_modified
      ai_analysis := if ai_in_locals then chosen.2.2.2 else none
      analysis_method := if ai_in_locals then "ai_powered" else "basic" }
  (row, db ++ [row])

/-! ## AI agent (`backend/agents/code_analysis_agent.py`) -/

/-- The set of instance attribute names assigned by
`CodeAnalysisAgent.__init__` (after the API-key check passed):
`adk_client` / `genai_model` are only assigned when the corresponding
module import succeeded and the client construction did not raise, while
`adk_enabled` / `genai_enabled` are always assigned.  No branch ever
assigns `model`. -/
def agentInitAttrs (adk_available adk_init_ok genai_available genai_init_ok : Bool) :
    List String :=
  (if adk_available then
     (if adk_init_ok then ["adk_client", "adk_enabled"] else ["adk_enabled"])
   else ["adk_enabled"]) ++
  (if genai_available then
     (if genai_init_ok then ["genai_model", "genai_enabled"] else ["genai_enabled"])
   else ["genai_enabled"])

/-- Python attribute lookup on the agent: `AttributeError` (as an
exception value) when the attribute was never assigned. -/
def getattrAgent (attrs : List String) (name : String) : Except String Unit :=
  if name ∈ attrs then Except.ok () else Except.error "AttributeError"

/-- `CodeAnalysisAgent._calculate_fallback_health_impact`. -/
def calculate_fallback_health_impact (quality_score : Int) : Int :=
  if 90 ≤ quality_score then 15
  else if 70 ≤ quality_score then 8
  else if 50 ≤ quality_score then 2
  else if 30 ≤ quality_score then -5
  else -12

/-- `CodeAnalysisAgent.suggest_health_impact`: the `try` body first
dereferences `self.model`, then awaits the generation call (its outcome —
including JSON parsing and the `health_impact` field extraction — is the
`model_call` parameter) and clamps the result to `[-20,20]`; any raised
exception falls back to `_calculate_fallback_health_impact` applied to
`analysis_results.get("overall_quality_score", 60)`. -/
def suggest_health_impact (attrs : List String) (model_call : Except String Int)
    (overall_quality_score : Option Int) : Int :=
  let attempt : Except String Int :=
    (getattrAgent attrs "model").bind (fun _ =>
      model_call.bind (fun impact => Except.ok (max (-20) (min 20 impact))))
  match attempt with
  | Except.ok v => v
  | Except.error _ => calculate_fallback_health_impact (overall_quality_score.getD 60)

/-! ## User token encryption (`backend/models/user.py`)

The external cryptography libraries are modelled by their documented
contracts: `Fernet` is authenticated symmetric encryption (a ciphertext
decrypts only under the key that produced it, and remembers its
plaintext), the base64 transport encoding is the identity of the model,
and the key-derivation function (`PBKDF2-HMAC-SHA256` over the master
key, salted with the hash of the GitHub id) and the key-hash function
(`SHA-256 hex`) are abstract parameters `derive_user_key` /
`hash_key_hex` threaded to exactly the call sites `user.py` has. -/

/-- A Fernet ciphertext in the ideal authenticated-encryption model. -/
structure FernetToken where
  key : String
  msg : String
deriving DecidableEq, Repr

/-- `Fernet(user_key).encrypt(token)` in the ideal model. -/
def fernetEncrypt (key : String) (msg : String) : FernetToken := ⟨key, msg⟩

/-- `Fernet(user_key).decrypt(tok)` in the ideal model: authenticated,
so decryption under any other key raises. -/
def fernetDecrypt (key : String) (tok : FernetToken) : Except String String :=
  if key = tok.key then Except.ok tok.msg else Except.error "InvalidToken"

/-- The `User` row slice used by token encryption. -/
structure UserRec where
  github_id : String
  access_token_encrypted : Option FernetToken := none
  encryption_key_hash : Option String := none
deriving DecidableEq, Repr

/-- `User.encrypt_token`: derives the per-user key, encrypts the token
under it and stores ciphertext plus key hash. -/
def encrypt_token (derive_user_key : String → String → String)
    (hash_key_hex : String → String) (u : UserRec) (token : String)
    (master_key : String) : UserRec :=
  let user_key := derive_user_key master_key u.github_id
  let encrypted_token := fernetEncrypt user_key token
  { u with access_token_encrypted := some encrypted_token,
           encryption_key_hash := some (hash_key_hex user_key) }

/-- `User.decrypt_token`: re-derives the key, verifies its hash against
the stored `encryption_key_hash` (raising `"Encryption key mismatch"` on
disagreement), then decrypts; any decryption failure is re-raised with a
`"Failed to decrypt token"` prefix. -/
def decrypt_token (derive_user_key : String → String → String)
    (hash_key_hex : String → String) (u : UserRec) (master_key : String) :
    Except String String :=
  let user_key := derive_user_key master_key u.github_id
  if some (hash_key_hex user_key) ≠ u.encryption_key_hash then
    Except.error "Encryption key mismatch"
  else
    match u.access_token_encrypted with
    | none => Except.error "Failed to decrypt token: no stored token"
    | some tok =>
        match fernetDecrypt user_key tok with
        | Except.ok d => Except.ok d
        | Except.error e => Except.error ("Failed to decrypt token: " ++ e)

/-- Concrete derivation function for the C9 witness. -/
def demoDerive (master_key gid : String) : String := master_key ++ "|" ++ gid

/-- Concrete key-hash function for the C9 witness. -/
def demoHash (k : String) : String := k

/-- Concrete user for the C9 witness. -/
def demoUser : UserRec := { github_id := "42" }

/-! ## Webhook signature verification (`backend/services/webhook_service.py`)

`hmac.new(secret.encode('utf-8'), payload, hashlib.sha256).hexdigest()`
is embedded as a full implementation of FIPS-180-4 SHA-256 and RFC 2104
HMAC over byte lists (bytes are `Nat` values below 256; 32-bit words are
`Nat` values reduced with an explicit `% 2^32`). -/

namespace SHA256

/-- Reduce to a 32-bit word. -/
def w32 (n : Nat) : Nat := n % 4294967296

/-- 32-bit right rotation. -/
def rotr (n x : Nat) : Nat := w32 ((x >>> n) ||| (x <<< (32 - n)))

/-- `Ch(x,y,z)`. -/
def ch (x y z : Nat) : Nat := (x &&& y) ^^^ ((x ^^^ 4294967295) &&& z)

/-- `Maj(x,y,z)`. -/
def maj (x y z : Nat) : Nat := (x &&& y) ^^^ (x &&& z) ^^^ (y &&& z)

/-- `Σ₀`. -/
def bigSigma0 (x : Nat) : Nat := rotr 2 x ^^^ rotr 13 x ^^^ rotr 22 x

/-- `Σ₁`. -/
def bigSigma1 (x : Nat) : Nat := rotr 6 x ^^^ rotr 11 x ^^^ rotr 25 x

/-- `σ₀`. -/
def smallSigma0 (x : Nat) : Nat := rotr 7 x ^^^ rotr 18 x ^^^ (x >>> 3)

/-- `σ₁`. -/
def smallSigma1 (x : Nat) : Nat := rotr 17 x ^^^ rotr 19 x ^^^ (x >>> 10)

/-- The 64 round constants (FIPS 180-4 section 4.2.2, written in
decimal). -/
def K : List Nat :=
  [1116352408, 1899447441, 3049323471, 3921009573, 961987163,
   1508970993, 2453635748, 2870763221, 3624381080, 310598401,
   607225278, 1426881987, 1925078388, 2162078206, 2614888103,
   3248222580, 3835390401, 4022224774, 264347078, 604807628,
   770255983, 1249150122, 1555081692, 1996064986, 2554220882,
   2821834349, 2952996808, 3210313671, 3336571891, 3584528711,
   113926993, 338241895, 666307205, 773529912, 1294757372,
   1396182291, 1695183700, 1986661051, 2177026350, 2456956037,
   2730485921, 2820302411, 3259730800, 3345764771, 3516065817,
   3600352804, 4094571909, 275423344, 430227734, 506948616,
   659060556, 883997877, 958139571, 1322822218, 1537002063,
   1747873779, 1955562222, 2024104815, 2227730452, 2361852424,
   2428436474, 2756734187, 3204031479, 3329325298]

/-- The initial hash state (FIPS 180-4 section 5.3.3, in decimal). -/
def H0 : List Nat :=
  [1779033703, 3144134277, 1013904242, 2773480762,
   1359893119, 2600822924, 528734635, 1541459225]

/-- `k` bytes of `n`, big-endian. -/
def beBytes (k : Nat) (n : Nat) : List Nat :=
  (List.range k).map (fun i => (n >>> ((k - 1 - i) * 8)) % 256)

/-- FIPS-180-4 padding: append `0x80`, zeros, and the 64-bit big-endian
bit length, up to a multiple of 64 bytes. -/
def padMessage (msg : List Nat) : List Nat :=
  let len := msg.length
  let padZeros := (119 - len % 64) % 64
  msg ++ [0x80] ++ List.replicate padZeros 0 ++ beBytes 8 (len * 8)

/-- Group bytes into 32-bit big-endian words. -/
def toWords : List Nat → List Nat
  | b0 :: b1 :: b2 :: b3 :: rest =>
      (((b0 * 256 + b1) * 256 + b2) * 256 + b3) :: toWords rest
  | _ => []

/-- One message-schedule extension step: append `W[i]` for `i = |w|`. -/
def scheduleStep (w : List Nat) : List Nat :=
  let i := w.length
  w ++ [w32 (smallSigma1 (w.getD (i - 2) 0) + w.getD (i - 7) 0 +
             smallSigma0 (w.getD (i - 15) 0) + w.getD (i - 16) 0)]

/-- Extend the 16-word schedule by `k` further words. -/
def buildSchedule (w : List Nat) : Nat → List Nat
  | 0 => w
  | k + 1 => buildSchedule (scheduleStep w) k

/-- The eight working registers. -/
structure Regs where
  a : Nat
  b : Nat
  c : Nat
  d : Nat
  e : Nat
  f : Nat
  g : Nat
  h : Nat
deriving DecidableEq, Repr

/-- One compression round. -/
def round (kc wc : Nat) (r : Regs) : Regs :=
  let t1 := w32 (r.h + bigSigma1 r.e + ch r.e r.f r.g + kc + wc)
  let t2 := w32 (bigSigma0 r.a + maj r.a r.b r.c)
  { a := w32 (t1 + t2), b := r.a, c := r.b, d := r.c,
    e := w32 (r.d + t1), f := r.e, g := r.f, h := r.g }

/-- Compress one 64-byte block into the hash state. -/
def compressBlock (hs : List Nat) (block : List Nat) : List Nat :=
  let w := buildSchedule (toWords block) 48
  let init : Regs :=
    { a := hs.getD 0 0, b := hs.getD 1 0, c := hs.getD 2 0, d := hs.getD 3 0,
      e := hs.getD 4 0, f := hs.getD 5 0, g := hs.getD 6 0, h := hs.getD 7 0 }
  let fin := (List.range 64).foldl (fun r i => round (K.getD i 0) (w.getD i 0) r) init
  [w32 (hs.getD 0 0 + fin.a), w32 (hs.getD 1 0 + fin.b),
   w32 (hs.getD 2 0 + fin.c), w32 (hs.getD 3 0 + fin.d),
   w32 (hs.getD 4 0 + fin.e), w32 (hs.getD 5 0 + fin.f),
   w32 (hs.getD 6 0 + fin.g), w32 (hs.getD 7 0 + fin.h)]

/-- Split into 64-byte chunks (fuel-driven structural recursion). -/
def chunks64Go : List Nat → Nat → List (List Nat)
  | _, 0 => []
  | [], _ + 1 => []
  | l, fuel + 1 => l.take 64 :: chunks64Go (l.drop 64) fuel

/-- Split a byte list into 64-byte chunks. -/
def chunks64 (l : List Nat) : List (List Nat) := chunks64Go l (l.length / 64 + 1)

/-- SHA-256 digest (32 bytes) of a byte list. -/
def sha256 (msg : List Nat) : List Nat :=
  let final := (chunks64 (padMessage msg)).foldl compressBlock H0
  (final.map (beBytes 4)).foldr (fun ws acc => ws ++ acc) []

end SHA256

/-- One lower-case hex digit. -/
def hexDigit (n : Nat) : Char := "0123456789abcdef".data.getD n '0'

/-- Lower-case hex string of a byte list (`.hexdigest()`). -/
def bytesToHex (bs : List Nat) : String :=
  String.mk (bs.foldr (fun b acc => hexDigit (b / 16) :: hexDigit (b % 16) :: acc) [])

/-- RFC 2104 HMAC-SHA256 (block size 64 bytes). -/
def hmacSha256 (key msg : List Nat) : List Nat :=
  let k0 := if 64 < key.length then SHA256.sha256 key else key
  let kpad := k0 ++ List.replicate (64 - k0.length) 0
  let ipadKey := kpad.map (fun b => b ^^^ 0x36)
  let opadKey := kpad.map (fun b => b ^^^ 0x5c)
  SHA256.sha256 (opadKey ++ SHA256.sha256 (ipadKey ++ msg))

/-- `hmac.new(key, msg, hashlib.sha256).hexdigest()`. -/
def hmacSha256Hex (key msg : List Nat) : String := bytesToHex (hmacSha256 key msg)

/-- UTF-8 encoding of one code point. -/
def utf8Bytes (c : Char) : List Nat :=
  let n := c.toNat
  if n < 0x80 then [n]
  else if n < 0x800 then
    [0xC0 ||| (n >>> 6), 0x80 ||| (n &&& 0x3F)]
  else if n < 0x10000 then
    [0xE0 ||| (n >>> 12), 0x80 ||| ((n >>> 6) &&& 0x3F), 0x80 ||| (n &&& 0x3F)]
  else
    [0xF0 ||| (n >>> 18), 0x80 ||| ((n >>> 12) &&& 0x3F),
     0x80 ||| ((n >>> 6) &&& 0x3F), 0x80 ||| (n &&& 0x3F)]

/-- UTF-8 bytes of a string (`str.encode('utf-8')`). -/
def strBytes (s : String) : List Nat := (s.data.map utf8Bytes).foldr (fun b acc => b ++ acc) []

/-- `WebhookService.verify_github_signature`: reject any header that does
not start with `sha256=`, else compare the header against
`'sha256=' + hexdigest` (`hmac.compare_digest` is equality; its
constant-time execution is a timing property outside the embedding). -/
def verify_github_signature (payload : List Nat) (signature : String) (secret : String) :
    Bool :=
  if !(startsL signature.data "sha256=") then false
  else
    let expected := "sha256=" ++ hmacSha256Hex (strBytes secret) payload
    decide (expected = signature)

end Tamagitto

namespace Tamagitto

/-! ## Evaluation lemmas for the entity state machine -/

/-- The health score written by `update_health` is the clamped input. -/
theorem update_health_score (e : Entity) (nh : Int) (r : String) (c : Option Nat) (n : Int) :
    (e.update_health nh r c n).2.health_score = max 0 (min 100 nh) := rfl

/-- `update_health` leaves the metadata untouched. -/
theorem update_health_metadata (e : Entity) (nh : Int) (r : String) (c : Option Nat) (n : Int) :
    (e.update_health nh r c n).2.metadata = e.metadata := rfl

/-- The status written by `update_health`, as the `if`/`elif` chain. -/
theorem update_health_status (e : Entity) (nh : Int) (r : String) (c : Option Nat) (n : Int) :
    (e.update_health nh r c n).2.status =
      (if max 0 (min 100 nh) = 0 ∧ e.status ≠ Status.dead then Status.dead
       else if max 0 (min 100 nh) ≤ 15 ∧ e.status = Status.alive then Status.dying
       else if 15 < max 0 (min 100 nh) ∧ e.status = Status.dying then Status.alive
       else e.status) := by
  simp only [Entity.update_health]
  split_ifs <;> rfl

/-- The death date written by `update_health`. -/
theorem update_health_death_date (e : Entity) (nh : Int) (r : String) (c : Option Nat) (n : Int) :
    (e.update_health nh r c n).2.death_date =
      (if max 0 (min 100 nh) = 0 ∧ e.status ≠ Status.dead then some n else e.death_date) := by
  simp only [Entity.update_health]
  split_ifs with h1 h2 h3 <;> simp_all

/-! ## Theorems for the claims -/

/-- C1: every health write through `update_health` / `apply_health_delta`
stores a health score clamped to `[0,100]` (delta `-150` at health `40`
gives exactly `0`), the status transitions follow the deterministic
`if`/`elif` chain (new health exactly `0` while not dead ⇒ `dead` with a
death timestamp; otherwise new health `≤ 15` while `alive` ⇒ `dying`;
new health `> 15` while `dying` ⇒ `alive`), and the returned flag is true
exactly when the entity just transitioned to `dead`. -/
theorem C1_health_clamp_and_transitions
    (e : Entity) (d : Int) (reason : String) (caid : Option Nat) (now : Int)
    (hlo : 0 ≤ e.health_score) (hhi : e.health_score ≤ 100) :
    (0 ≤ (e.apply_health_delta d reason caid now).2.health_score ∧
      (e.apply_health_delta d reason caid now).2.health_score ≤ 100) ∧
    (e.apply_health_delta d reason caid now).2.health_score = clampedHealth e.health_score d ∧
    (e.health_score = 40 → d = -150 → (e.apply_health_delta d reason caid now).2.health_score = 0) ∧
    (clampedHealth e.health_score d = 0 → e.status ≠ Status.dead →
        (e.apply_health_delta d reason caid now).2.status = Status.dead ∧
        (e.apply_health_delta d reason caid now).2.death_date = some now) ∧
    (¬ (clampedHealth e.health_score d = 0 ∧ e.status ≠ Status.dead) →
      clampedHealth e.health_score d ≤ 15 → e.status = Status.alive →
        (e.apply_health_delta d reason caid now).2.status = Status.dying) ∧
    (15 < clampedHealth e.health_score d → e.status = Status.dying →
        (e.apply_health_delta d reason caid now).2.status = Status.alive) ∧
    ((e.apply_health_delta d reason caid now).1 = true ↔
      (e.status ≠ Status.dead ∧ (e.apply_health_delta d reason caid now).2.status = Status.dead)) := by
  clear hlo hhi
  simp only [Entity.apply_health_delta, Entity.update_health, clampedHealth]
  split_ifs with h1 h2 h3 <;> simp_all

/-- Witness for C1 at health 40, delta −150. -/
theorem C1_witness :
    (0 ≤ aliveEnt40.health_score ∧ aliveEnt40.health_score ≤ 100) ∧
    (aliveEnt40.apply_health_delta (-150) "commit_analysis_10" none 7).2.health_score =
      clampedHealth aliveEnt40.health_score (-150) :=
  ⟨⟨by decide, by decide⟩,
    (C1_health_clamp_and_transitions aliveEnt40 (-150) "commit_analysis_10" none 7
      (by decide) (by decide)).2.1⟩

/-- C2: an alive entity whose interaction cooldown lies in the future has
its commit-driven update rejected with the cooldown reason and the
remaining cooldown time, leaving its health score unchanged; with no
cooldown or an expired one the update is accepted and the health delta is
applied (clamped). -/
theorem C2_cooldown_enforcement
    (e : Entity) (impact qs : Int) (caid : Option Nat) (rh : Nat) (now : Int)
    (halive : e.status = Status.alive) :
    (∀ t, e.interaction_cooldown_until = some t → now < t →
      (apply_commit_impact e impact qs caid rh now).1.success = false ∧
      (apply_commit_impact e impact qs caid rh now).1.reason =
        some "Entity is in cooldown period" ∧
      (apply_commit_impact e impact qs caid rh now).1.cooldown_remaining = some (t - now) ∧
      (apply_commit_impact e impact qs caid rh now).2.health_score = e.health_score) ∧
    ((e.interaction_cooldown_until = none ∨
        (∃ t, e.interaction_cooldown_until = some t ∧ t ≤ now)) →
      (apply_commit_impact e impact qs caid rh now).1.success = true ∧
      (apply_commit_impact e impact qs caid rh now).2.health_score =
        clampedHealth e.health_score impact) := by
  constructor
  · intro t ht hfut
    simp [apply_commit_impact, Entity.is_alive, halive, Entity.can_receive_health_update,
          Entity.time_until_interaction_cooldown_expires, ht, not_le.mpr hfut, hfut]
  · intro hexp
    have hcan : e.can_receive_health_update now = true := by
      rcases hexp with hnone | ⟨t, ht, hle⟩
      · simp [Entity.can_receive_health_update, hnone]
      · simp [Entity.can_receive_health_update, ht, hle]
    simp only [apply_commit_impact, Entity.is_alive, halive, hcan]
    simp [Entity.apply_health_delta, update_health_score, clampedHealth]

/-- Witness for C2: a cooldown until tick 100 observed at tick 10 rejects
the update and keeps health at 50. -/
theorem C2_witness :
    cooldownEnt.status = Status.alive ∧
    cooldownEnt.interaction_cooldown_until = some 100 ∧ (10:Int) < 100 ∧
    (apply_commit_impact cooldownEnt 5 80 none 2 10).1.success = false ∧
    (apply_commit_impact cooldownEnt 5 80 none 2 10).2.health_score = 50 :=
  ⟨rfl, rfl, by decide, by
    have h := (C2_cooldown_enforcement cooldownEnt 5 80 none 2 10 rfl).1 100 rfl (by decide)
    exact ⟨h.1, h.2.2.2⟩⟩

/-- C4 counterexample: reviving a dead entity with the in-range value 10
succeeds but ends with status `dying`, not `alive`, refuting the claim
that revival sets the status to `alive` for every value in `[1,50]`. -/
theorem C4_counterexample :
    (1:Int) ≤ 10 ∧ (10:Int) ≤ 50 ∧
    (revive_entity deadEnt 10 99).1.success = true ∧
    (revive_entity deadEnt 10 99).2.status ≠ Status.alive := by
  refine ⟨by decide, by decide, rfl, ?_⟩
  rw [show (revive_entity deadEnt 10 99).2.status = Status.dying from rfl]
  decide

/-- C4 (amended): reviving a dead entity with a chosen value in `[1,50]`
succeeds, sets the health score to exactly that value, clears the death
timestamp, increments the revival counter, records the revival timestamp,
and ends with status `alive` when the value exceeds 15 and `dying`
otherwise (the standard health-write transition fires after the status is
reset); reviving an entity that is already alive is rejected. -/
theorem C4_revive_dead_entity
    (e : Entity) (v : Int) (now : Int)
    (hdead : e.status = Status.dead) (h1 : 1 ≤ v) (h50 : v ≤ 50) :
    (revive_entity e v now).1.success = true ∧
    (revive_entity e v now).2.health_score = v ∧
    (revive_entity e v now).2.death_date = none ∧
    (revive_entity e v now).2.metadata.revival_count =
      some (e.metadata.revival_count.getD 0 + 1) ∧
    (revive_entity e v now).2.metadata.last_revival = some now ∧
    (revive_entity e v now).1.revival_count =
      some (e.metadata.revival_count.getD 0 + 1) ∧
    (revive_entity e v now).2.status =
      (if v ≤ 15 then Status.dying else Status.alive) ∧
    (∀ e' : Entity, e'.status = Status.alive →
      (revive_entity e' v now).1.success = false) := by
  have hnotalive : e.is_alive = false := by simp [Entity.is_alive, hdead]
  have hclamp : max 0 (min 100 v) = v := by omega
  have hv0 : ¬ (v = 0) := by omega
  simp only [revive_entity, hnotalive, Bool.false_eq_true, if_false]
  refine ⟨?_, ?_, ?_, ?_, ?_, ?_, ?_, ?_⟩
  · trivial
  · simpa [update_health_score] using hclamp
  · rw [update_health_death_date]
    simp [hclamp, hv0]
  · simp [update_health_metadata]
  · simp [update_health_metadata]
  · simp [update_health_metadata]
  · rw [update_health_status]
    simp only [hclamp]
    simp [hv0]
  · intro e' he'
    simp [revive_entity, Entity.is_alive, he']

/-- C5 counterexample: the message
`"feat(auth): add JWT token refresh functionality"` scores 90, not 95 —
the `+5` capitalization bonus does not apply because the first character
`'f'` is lower case. -/
theorem C5_counterexample :
    analyze_commit_message "feat(auth): add JWT token refresh functionality" = 90 ∧
    (90 : Int) ≠ 95 := by
  constructor <;> decide

/-- C5 (amended): the bare message `"fix"` scores at most 20 (it scores
5 = 50 − 20 short-line − 30 bad-pattern + 5 no-trailing-period), and
`"feat(auth): add JWT token refresh functionality"` scores exactly
90 = 50 + 15 length + 20 conventional + 5 no-trailing-period; the +5
capitalization bonus does not apply since `'f'` is lower case. -/
theorem C5_commit_message_scores :
    analyze_commit_message "fix" ≤ 20 ∧
    analyze_commit_message "fix" = 5 ∧
    analyze_commit_message "feat(auth): add JWT token refresh functionality" = 90 := by
  refine ⟨by decide, by decide, by decide⟩

/-- C6 counterexample: a single file with 1500 changed lines (total
changes `> 1000`) scores 40 = 50 − 20 + 10, not the 0 = 50 − 20 − 40 + 10
that stacking both size penalties would give: the `elif` chain makes the
`−40` branch unreachable. -/
theorem C6_counterexample :
    1000 <
      (([({ filename := "a.py", changes := 1500 } : FileEntry)]).map (fun f => f.changes)).sum ∧
    analyze_code_changes [({ filename := "a.py", changes := 1500 } : FileEntry)] = 40 ∧
    analyze_code_changes [({ filename := "a.py", changes := 1500 } : FileEntry)] ≠
      max 0 (min 100 ((50 : Int) - 20 - 40 + 10)) := by
  refine ⟨by decide, by decide, by decide⟩

/-- C6 (amended): when the total changed lines exceed 1000, only the
`−20` penalty (for exceeding 500) applies — the `−40` branch is dead code
because the `> 500` test precedes the `> 1000` test in the `elif` chain —
so the score is `clamp(50 − 20 + bonuses)`. -/
theorem C6_large_diff_single_penalty (files : List FileEntry)
    (h : 1000 < (files.map (fun f => f.changes)).sum) :
    analyze_code_changes files =
      max 0 (min 100 ((50 : Int) - 20
        + (if 0 < count_test_files files ∧ 0 < count_code_files files then 15 else 0)
        + (if files.length ≤ 10 then (10 : Int)
           else if 20 < files.length then -15 else 0))) := by
  have hne : files ≠ [] := by
    rintro rfl
    simp at h
  have c1 : ¬ (50 ≤ (files.map (fun f => f.changes)).sum ∧
      (files.map (fun f => f.changes)).sum ≤ 200) := by omega
  have c2 : ¬ ((files.map (fun f => f.changes)).sum < 50) := by omega
  have c3 : 500 < (files.map (fun f => f.changes)).sum := by omega
  simp only [analyze_code_changes, hne, c1, c2, c3]
  simp

/-- Witness for C6 on one code file with 1500 changed lines. -/
theorem C6_witness :
    1000 <
      (([({ filename := "a.py", changes := 1500 } : FileEntry)]).map (fun f => f.changes)).sum ∧
    analyze_code_changes [({ filename := "a.py", changes := 1500 } : FileEntry)] =
      max 0 (min 100 ((50 : Int) - 20
        + (if 0 < count_test_files [({ filename := "a.py", changes := 1500 } : FileEntry)] ∧
              0 < count_code_files [({ filename := "a.py", changes := 1500 } : FileEntry)]
           then 15 else 0)
        + (if ([({ filename := "a.py", changes := 1500 } : FileEntry)]).length ≤ 10 then (10 : Int)
           else if 20 < ([({ filename := "a.py", changes := 1500 } : FileEntry)]).length
           then -15 else 0))) :=
  ⟨by decide,
    C6_large_diff_single_penalty [({ filename := "a.py", changes := 1500 } : FileEntry)]
      (by decide)⟩

/-- C7: the heuristic health impact is exactly the matched band's
midpoint scaled by `clamp(totalChanges/100, 0.5, 1.5)`, truncated toward
zero and clamped to `[-20,20]`; a quality score of 92 selects the
`excellent` band `[15,20]` (at `totalChanges = 100` the impact is 17),
and the result lies in `[-20,20]` for every quality score and every
`totalChanges`. -/
theorem C7_health_impact_banding (q : Int) (tc : Nat) :
    calculate_health_impact q tc =
      max (-20) (min 20 (truncQ (bandMidpoint (qualityBand q) * sizeFactor tc))) ∧
    qualityBand 92 = "excellent" ∧
    HEALTH_IMPACT_RANGES.lookup "excellent" = some (15, 20) ∧
    calculate_health_impact 92 100 = 17 ∧
    -20 ≤ calculate_health_impact q tc ∧ calculate_health_impact q tc ≤ 20 := by
  refine ⟨?_, rfl, rfl, ?_, ?_, ?_⟩
  · simp only [calculate_health_impact, bandMidpoint, qualityBand, sizeFactor]
    split_ifs <;> rfl
  · norm_num [calculate_health_impact, HEALTH_IMPACT_RANGES, truncQ, List.lookup]
  · exact le_max_left _ _
  · exact max_le (by norm_num) (min_le_left _ _)

/-- C3: if the AI agent raises on every call (or AI is disabled),
`analyze_commit` still persists exactly one row built from the heuristic
six-dimension analysis — quality breakdown, weighted quality score and
heuristic health impact — embedding the extracted metrics and tagged
`"basic"`; when both AI calls succeed the tag is `"ai_powered"`. -/
theorem C3_ai_fallback_produces_basic_row
    (repo : Repo) (commit_data fetched : CommitData) (ai_enabled : Bool)
    (aiAnalyze : Except String AiAnalysis) (aiSuggest : Except String Int)
    (db : List AnalysisRow)
    (hfail : ai_enabled = false ∨ ∃ msg, aiAnalyze = Except.error msg) :
    ((analyze_commit repo commit_data fetched ai_enabled aiAnalyze aiSuggest db).2 =
        db ++ [(analyze_commit repo commit_data fetched ai_enabled aiAnalyze aiSuggest db).1]) ∧
    ((analyze_commit repo commit_data fetched ai_enabled aiAnalyze aiSuggest db).2.length =
        db.length + 1) ∧
    ((analyze_commit repo commit_data fetched ai_enabled aiAnalyze aiSuggest db).1.analysis_method
        = "basic") ∧
    ((analyze_commit repo commit_data fetched ai_enabled aiAnalyze aiSuggest db).1.ai_analysis
        = none) ∧
    ((analyze_commit repo commit_data fetched ai_enabled aiAnalyze aiSuggest db).1.quality_breakdown
        = QualityBreakdown.basic (analyze_commit_quality
            (if commit_data.files.isEmpty then fetched else commit_data))) ∧
    ((analyze_commit repo commit_data fetched ai_enabled aiAnalyze aiSuggest db).1.quality_score
        = calculate_quality_score (analyze_commit_quality
            (if commit_data.files.isEmpty then fetched else commit_data))) ∧
    ((analyze_commit repo commit_data fetched ai_enabled aiAnalyze aiSuggest db).1.health_impact
        = calculate_health_impact
            (calculate_quality_score (analyze_commit_quality
              (if commit_data.files.isEmpty then fetched else commit_data)))
            (extract_commit_metrics
              (if commit_data.files.isEmpty then fetched else commit_data)).total_changes) ∧
    ((analyze_commit repo commit_data fetched ai_enabled aiAnalyze aiSuggest db).1.metrics
        = extract_commit_metrics
            (if commit_data.files.isEmpty then fetched else commit_data)) ∧
    ((analyze_commit repo commit_data fetched ai_enabled aiAnalyze aiSuggest db).1.commit_message
        = (extract_commit_metrics
            (if commit_data.files.isEmpty then fetched else commit_data)).message) ∧
    (∀ ai impact,
      (analyze_commit repo commit_data fetched true (Except.ok ai) (Except.ok impact) db).1.analysis_method
        = "ai_powered") := by
  rcases hfail with rfl | ⟨msg, rfl⟩
  · simp [analyze_commit]
  · cases ai_enabled <;> simp [analyze_commit]

/-- Witness for C3: AI disabled, every field of the persisted row comes
from the heuristic path. -/
theorem C3_witness :
    ((false : Bool) = false ∨
      ∃ msg, (Except.error "AI down" : Except String AiAnalysis) = Except.error msg) ∧
    (analyze_commit {} {} {} false (Except.error "AI down") (Except.error "AI down")
        []).1.analysis_method = "basic" :=
  ⟨Or.inl rfl,
    (C3_ai_fallback_produces_basic_row {} {} {} false (Except.error "AI down")
      (Except.error "AI down") [] (Or.inl rfl)).2.2.1⟩


/-- C10: `CodeAnalysisAgent.__init__` never assigns the attribute
`model`, so the primary path of `suggest_health_impact` raises
`AttributeError` on every call and the exception fallback is always
taken: the result is exactly the fixed band value determined by
`analysis_results.get("overall_quality_score", 60)` (≥90 → 15, ≥70 → 8,
≥50 → 2, ≥30 → −5, else −12), hence always within `[-20,20]`. -/
theorem C10_suggest_health_impact_always_fallback
    (adk_available adk_init_ok genai_available genai_init_ok : Bool)
    (model_call : Except String Int) (oqs : Option Int) :
    "model" ∉ agentInitAttrs adk_available adk_init_ok genai_available genai_init_ok ∧
    suggest_health_impact
        (agentInitAttrs adk_available adk_init_ok genai_available genai_init_ok)
        model_call oqs
      = calculate_fallback_health_impact (oqs.getD 60) ∧
    suggest_health_impact
        (agentInitAttrs adk_available adk_init_ok genai_available genai_init_ok)
        model_call oqs
      = (if 90 ≤ oqs.getD 60 then 15 else if 70 ≤ oqs.getD 60 then 8
         else if 50 ≤ oqs.getD 60 then 2 else if 30 ≤ oqs.getD 60 then -5 else (-12 : Int)) ∧
    -20 ≤ suggest_health_impact
        (agentInitAttrs adk_available adk_init_ok genai_available genai_init_ok)
        model_call oqs ∧
    suggest_health_impact
        (agentInitAttrs adk_available adk_init_ok genai_available genai_init_ok)
        model_call oqs ≤ 20 := by
  have hmem : "model" ∉
      agentInitAttrs adk_available adk_init_ok genai_available genai_init_ok := by
    cases adk_available <;> cases adk_init_ok <;>
      cases genai_available <;> cases genai_init_ok <;> decide
  have hval : suggest_health_impact
      (agentInitAttrs adk_available adk_init_ok genai_available genai_init_ok)
      model_call oqs = calculate_fallback_health_impact (oqs.getD 60) := by
    simp [suggest_health_impact, getattrAgent, hmem, Except.bind]
  refine ⟨hmem, hval, ?_, ?_, ?_⟩
  · rw [hval]; rfl
  · rw [hval]; unfold calculate_fallback_health_impact; split_ifs <;> norm_num
  · rw [hval]; unfold calculate_fallback_health_impact; split_ifs <;> norm_num

set_option maxRecDepth 10000

/-- Sanity check of the SHA-256 embedding against the FIPS-180-4 test
vector for `"abc"`. -/
theorem sha256_abc_vector :
    bytesToHex (SHA256.sha256 (strBytes "abc")) =
      "ba7816bf8f01cfea414140de5dae2223b00361a396177a9cb410ff61f20015ad" := by decide

/-- Sanity check of the HMAC-SHA256 embedding against the RFC 2202-style
test vector for key `"key"`. -/
theorem hmac_sha256_fox_vector :
    hmacSha256Hex (strBytes "key")
        (strBytes "The quick brown fox jumps over the lazy dog") =
      "f7bc83f430538424b13298e6aa6fb143ef4d59a14946175997479dbc2d1a3cd8" := by decide

/-- A header of the form `"sha256=" ++ x` starts with `sha256=`. -/
theorem startsL_sha256_header (x : String) :
    startsL ('s' :: 'h' :: 'a' :: '2' :: '5' :: '6' :: '=' :: x.data) "sha256=" = true := by
  show List.isPrefixOf _ _ = true
  rw [List.isPrefixOf_iff_prefix]
  exact ⟨x.data, rfl⟩

/-- Left-cancellation for string append. -/
theorem string_append_left_cancel {p a b : String} (h : p ++ a = p ++ b) : a = b := by
  have hd : p.data ++ a.data = p.data ++ b.data := congrArg String.data h
  have hab : a.data = b.data := List.append_cancel_left hd
  cases a
  cases b
  exact congrArg String.mk hab

/-- C8: webhook signature verification succeeds exactly when the header
equals `'sha256=' ++` the hex HMAC-SHA256 digest of the raw payload under
the secret; a header that does not start with `sha256=` is always
rejected; and presenting the header for one payload against another
payload succeeds exactly when the two digests coincide — so any payload
mutation that changes the digest makes verification fail. -/
theorem C8_signature_verification
    (payload payload2 : List Nat) (signature secret : String) :
    (verify_github_signature payload signature secret = true ↔
      signature = "sha256=" ++ hmacSha256Hex (strBytes secret) payload) ∧
    (startsL signature.data "sha256=" = false →
      verify_github_signature payload signature secret = false) ∧
    (verify_github_signature payload2
        ("sha256=" ++ hmacSha256Hex (strBytes secret) payload) secret =
      (hmacSha256Hex (strBytes secret) payload2 ==
        hmacSha256Hex (strBytes secret) payload)) := by
  refine ⟨?_, ?_, ?_⟩
  · constructor
    · intro h
      by_cases hs : startsL signature.data "sha256="
      · simp [verify_github_signature, hs] at h
        exact h.symm
      · simp [verify_github_signature, hs] at h
    · rintro rfl
      simp [verify_github_signature, startsL_sha256_header]
  · intro hs
    simp [verify_github_signature, hs]
  · by_cases hd : hmacSha256Hex (strBytes secret) payload2 =
        hmacSha256Hex (strBytes secret) payload
    · simp [verify_github_signature, startsL_sha256_header, hd]
    · have hne : "sha256=" ++ hmacSha256Hex (strBytes secret) payload2 ≠
          "sha256=" ++ hmacSha256Hex (strBytes secret) payload :=
        fun hcontra => hd (string_append_left_cancel hcontra)
      simp [verify_github_signature, startsL_sha256_header, hne, hd]

/-- Witness for C8: a header with the wrong scheme marker is rejected. -/
theorem C8_witness :
    startsL ("md5=ff" : String).data "sha256=" = false ∧
    verify_github_signature [1, 2, 3] "md5=ff" "secret" = false :=
  ⟨by decide,
    (C8_signature_verification [1, 2, 3] [1, 2, 3] "md5=ff" "secret").2.1 (by decide)⟩

/-- C9: encrypt-then-decrypt under the same master key returns the
original token; decrypting under a master key whose derived-key hash
differs, or after substituting a different stored key hash, raises
`"Encryption key mismatch"`; and no decryption outcome ever silently
returns a different plaintext than the one encrypted. -/
theorem C9_token_round_trip_and_integrity
    (derive : String → String → String) (hashHex : String → String)
    (u : UserRec) (token master : String) :
    decrypt_token derive hashHex (encrypt_token derive hashHex u token master) master
      = Except.ok token ∧
    (∀ master2,
      hashHex (derive master2 u.github_id) ≠ hashHex (derive master u.github_id) →
      decrypt_token derive hashHex (encrypt_token derive hashHex u token master) master2
        = Except.error "Encryption key mismatch") ∧
    (∀ h2, h2 ≠ hashHex (derive master u.github_id) →
      decrypt_token derive hashHex
        { encrypt_token derive hashHex u token master with encryption_key_hash := some h2 }
        master
        = Except.error "Encryption key mismatch") ∧
    (∀ master2 t,
      decrypt_token derive hashHex (encrypt_token derive hashHex u token master) master2
        = Except.ok t → t = token) := by
  refine ⟨?_, ?_, ?_, ?_⟩
  · simp [decrypt_token, encrypt_token, fernetDecrypt, fernetEncrypt]
  · intro m2 hne
    simp [decrypt_token, encrypt_token, hne]
  · intro h2 hne
    simp [decrypt_token, encrypt_token, Ne.symm hne]
  · intro m2 t hok
    by_cases hk : derive m2 u.github_id = derive master u.github_id
    · simp [decrypt_token, encrypt_token, fernetDecrypt, fernetEncrypt, hk] at hok
      exact hok.symm
    · by_cases hh : hashHex (derive m2 u.github_id) = hashHex (derive master u.github_id)
      · simp [decrypt_token, encrypt_token, fernetDecrypt, fernetEncrypt, hh, hk] at hok
      · simp [decrypt_token, encrypt_token, hh] at hok

/-- Witness for C9 with a concrete derivation function, key hash, user,
token and two distinct master keys. -/
theorem C9_witness :
    demoHash (demoDerive "m2" "42") ≠ demoHash (demoDerive "m1" "42") ∧
    decrypt_token demoDerive demoHash
        (encrypt_token demoDerive demoHash demoUser "tok" "m1") "m1" = Except.ok "tok" ∧
    decrypt_token demoDerive demoHash
        (encrypt_token demoDerive demoHash demoUser "tok" "m1") "m2"
      = Except.error "Encryption key mismatch" :=
  ⟨by decide,
    (C9_token_round_trip_and_integrity demoDerive demoHash demoUser "tok" "m1").1,
    (C9_token_round_trip_and_integrity demoDerive demoHash demoUser "tok" "m1").2.1 "m2"
      (by decide)⟩

/-- Witness for C4 at value 30 on a concrete dead entity. -/
theorem C4_witness :
    deadEnt.status = Status.dead ∧ (1:Int) ≤ 30 ∧ (30:Int) ≤ 50 ∧
    (revive_entity deadEnt 30 99).2.status =
      (if (30:Int) ≤ 15 then Status.dying else Status.alive) ∧
    (revive_entity deadEnt 30 99).2.health_score = 30 :=
  ⟨rfl, by decide, by decide,
    (C4_revive_dead_entity deadEnt 30 99 rfl (by decide) (by decide)).2.2.2.2.2.2.1,
    (C4_revive_dead_entity deadEnt 30 99 rfl (by decide) (by decide)).2.1⟩

end Tamagitto
